import Mathlib

/-!
Verification of the AST storage layer of a small compiler front end
(`src/ast.hpp`): the `OrderedDict` order-preserving symbol dictionary,
the `AstNode` tagged-union node with its kind-classification predicates,
and the `Ast` arena with handle recycling.

Modelling conventions:
* `AstNodeIndex` (`uint32_t`) and `IdIndex` are modelled as `Nat`;
  `UndefinedAstNodeIndex` is the concrete value `2^32 - 1`.
* `std::unordered_map` is modelled as an association list.  `OrderedDict`
  only ever inserts a key that is absent, so each key occurs at most once
  and the position of an insertion is unobservable; we insert at the head.
* The C++ `union Node` is modelled as a product of its members.  Every
  state change performed by the operations under verification
  (`AstNode::AstNode`, `AstNode::clean`, `Ast::create`, `Ast::remove`)
  either zero-fills the whole union (`memset`) or touches no payload
  field at all, so the product model agrees with the union on every
  observation these operations produce.  Heap-owned sub-lists
  (`std::vector*`, `OrderedDict*`) are modelled as `Option` values, with
  `none` standing for a null pointer; releasing a list and nulling its
  pointer is modelled as setting the field to `none`.
* The `removed` free list is a `std::deque` used as a stack at its back
  (`emplace_back` / `back` / `pop_back`); it is modelled as a `List`
  used as a stack at its head (`cons` / `head` / `tail`).
-/

def UndefinedAstNodeIndex : Nat := 4294967295

/-- Association-list model of `std::unordered_map<IdIndex, AstNodeIndex>::find`. -/
def mapFind (m : List (Nat × Nat)) (name : Nat) : Option Nat :=
  match m with
  | [] => none
  | (k, v) :: rest => if k = name then some v else mapFind rest name

structure OrderedDict where
  m_map : List (Nat × Nat)
  m_nodes : List Nat
deriving DecidableEq, Repr

def OrderedDict.empty : OrderedDict := { m_map := [], m_nodes := [] }

/-- Model of `OrderedDict::append(IdIndex name, AstNodeIndex node_index)`:
insert into the map and the ordered sequence only when the name is absent. -/
def OrderedDict.append (d : OrderedDict) (name node_index : Nat) : OrderedDict :=
  match mapFind d.m_map name with
  | some _ => d
  | none =>
      { m_map := (name, node_index) :: d.m_map,
        m_nodes := d.m_nodes ++ [node_index] }

/-- Model of the unnamed overload `OrderedDict::append(AstNodeIndex)`. -/
def OrderedDict.appendUnnamed (d : OrderedDict) (node_index : Nat) : OrderedDict :=
  { d with m_nodes := d.m_nodes ++ [node_index] }

/-- Model of `OrderedDict::find`: map lookup, `UndefinedAstNodeIndex` when absent. -/
def OrderedDict.find (d : OrderedDict) (name : Nat) : Nat :=
  match mapFind d.m_map name with
  | none => UndefinedAstNodeIndex
  | some v => v

/-- Model of `OrderedDict::get_nodes`. -/
def OrderedDict.get_nodes (d : OrderedDict) : List Nat := d.m_nodes

/-- Replay a sequence of named `append` calls on a dictionary. -/
def OrderedDict.appendAll (d : OrderedDict) (ops : List (Nat × Nat)) : OrderedDict :=
  ops.foldl (fun d p => d.append p.1 p.2) d

/-- Specification-side helper: the node index of the earliest pair in `ops`
whose name component is `name` (`none` when no such pair exists). -/
def firstWith (ops : List (Nat × Nat)) (name : Nat) : Option Nat :=
  match ops with
  | [] => none
  | (k, v) :: rest => if k = name then some v else firstWith rest name

/-- Node-kind enumeration of `AstNode::Kind`. -/
inductive AstNode.Kind where
  | None | «Type» | Value
  | I8Type | I16Type | I32Type | U8Type | U16Type | U32Type | F32Type | F64Type
  | StructType | UnionType
  | FunType | FunTypeWithNamedParams | LocalVariable | GlobalVariable | StringLiteral
  | I8Literal | I16Literal | I32Literal | U8Literal | U16Literal | U32Literal
  | F32Literal | F64Literal
  | AssignExpr | EqualExpr | GreatExpr | GreatOrEqualExpr | LessExpr | LessOrEqualExpr
  | ParenthExpr | NegExpr
  | StructField | UnionField
  | Function | Struct | Union | BlockScope
  | VariableDeclStmt | BlockStmt | FunctionDeclStmt | StructDeclStmt | UnionDeclStmt
  | IfElseStmt | WhileStmt
deriving DecidableEq, Repr, Fintype

/-- `AstNode::Node::Value`. -/
structure NodeValue where
  type : Nat
deriving DecidableEq, Repr

/-- Shape of `global_variable` / `local_variable` members. -/
structure NodeNamedValue where
  value : NodeValue
  name : Nat
deriving DecidableEq, Repr

/-- `AstNode::Node::UnaryExpr`. -/
structure NodeUnaryExpr where
  expr : Nat
deriving DecidableEq, Repr

/-- `AstNode::Node::BinaryExpr`. -/
structure NodeBinaryExpr where
  left : Nat
  right : Nat
deriving DecidableEq, Repr

/-- `AstNode::Node::StringLiteral`. -/
structure NodeStringLiteral where
  value : NodeValue
  string : Nat
deriving DecidableEq, Repr

/-- `AstNode::Node::NumberLiteral<Type>`. -/
structure NodeNumberLiteral (α : Type) where
  value : NodeValue
  literal_value : α
deriving DecidableEq, Repr

/-- `AstNode::Node::FunType`; `param_types` is a heap-owned list,
`none` models a null pointer. -/
structure NodeFunType where
  return_type : Nat
  param_types : Option (List Nat)
  name : Nat
deriving DecidableEq, Repr

/-- `AstNode::Node::FunTypeWithNamedParams`. -/
structure NodeFunTypeWithNamedParams where
  fun_type : NodeFunType
  names : Option (List Nat)
deriving DecidableEq, Repr

/-- Shape of the `struct_type` member. -/
structure NodeStructType where
  struct_scope : Nat
deriving DecidableEq, Repr

/-- Shape of the `struct_field` member. -/
structure NodeStructField where
  value : NodeValue
  name : Nat
  offset : Nat
deriving DecidableEq, Repr

/-- `AstNode::Node::Scope`; `dict` is a heap-owned `OrderedDict`. -/
structure NodeScope where
  outer_scope : Nat
  name : Nat
  dict : Option OrderedDict
deriving DecidableEq, Repr

/-- Shape of the `block_scope` member. -/
structure NodeBlockScope where
  scope : NodeScope
  block_stmt : Nat
deriving DecidableEq, Repr

/-- Shape of the `function` member. -/
structure NodeFunction where
  scope : NodeScope
  function_type_with_named_params : Nat
deriving DecidableEq, Repr

/-- `AstNode::Node::StructOrUnion`. -/
structure NodeStructOrUnion where
  scope : NodeScope
deriving DecidableEq, Repr

/-- Shape of the `variable_decl_stmt` member. -/
structure NodeVariableDeclStmt where
  «variable» : Nat
  init_expr : Nat
deriving DecidableEq, Repr

/-- Shape of the `block_stmt` member; `stmts` is a heap-owned list. -/
structure NodeBlockStmt where
  block_scope : Nat
  stmts : Option (List Nat)
deriving DecidableEq, Repr

/-- Shape of the `if_else_stmt` member. -/
structure NodeIfElseStmt where
  expr : Nat
  stmt : Nat
  else_stmt : Nat
deriving DecidableEq, Repr

/-- Shape of the `while_stmt` member. -/
structure NodeWhileStmt where
  expr : Nat
  stmt : Nat
deriving DecidableEq, Repr

/-- Product model of `union AstNode::Node` (see the module comment for why a
product is adequate for the verified operations). -/
structure Node where
  value : NodeValue
  global_variable : NodeNamedValue
  local_variable : NodeNamedValue
  parenth_expr : NodeUnaryExpr
  neg_expr : NodeUnaryExpr
  assign_expr : NodeBinaryExpr
  equal_expr : NodeBinaryExpr
  great_expr : NodeBinaryExpr
  great__or_equal_expr : NodeBinaryExpr
  less_expr : NodeBinaryExpr
  less_or_equal_expr : NodeBinaryExpr
  string_literal : NodeStringLiteral
  i8_literal : NodeNumberLiteral Int
  i16_literal : NodeNumberLiteral Int
  i32_literal : NodeNumberLiteral Int
  i64_literal : NodeNumberLiteral Int
  u8_literal : NodeNumberLiteral Nat
  u16_literal : NodeNumberLiteral Nat
  u32_literal : NodeNumberLiteral Nat
  fun_type : NodeFunType
  fun_type_with_named_params : NodeFunTypeWithNamedParams
  struct_type : NodeStructType
  struct_field : NodeStructField
  scope : NodeScope
  block_scope : NodeBlockScope
  function : NodeFunction
  struc : NodeStructOrUnion
  unio : NodeStructOrUnion
  variable_decl_stmt : NodeVariableDeclStmt
  block_stmt : NodeBlockStmt
  if_else_stmt : NodeIfElseStmt
  while_stmt : NodeWhileStmt
deriving DecidableEq, Repr

/-- The all-zero-bytes payload: every index and value field `0`, every
heap pointer null (`none`) — the result of `memset(this, 0, sizeof(AstNode))`. -/
def Node.zero : Node where
  value := { type := 0 }
  global_variable := { value := { type := 0 }, name := 0 }
  local_variable := { value := { type := 0 }, name := 0 }
  parenth_expr := { expr := 0 }
  neg_expr := { expr := 0 }
  assign_expr := { left := 0, right := 0 }
  equal_expr := { left := 0, right := 0 }
  great_expr := { left := 0, right := 0 }
  great__or_equal_expr := { left := 0, right := 0 }
  less_expr := { left := 0, right := 0 }
  less_or_equal_expr := { left := 0, right := 0 }
  string_literal := { value := { type := 0 }, string := 0 }
  i8_literal := { value := { type := 0 }, literal_value := 0 }
  i16_literal := { value := { type := 0 }, literal_value := 0 }
  i32_literal := { value := { type := 0 }, literal_value := 0 }
  i64_literal := { value := { type := 0 }, literal_value := 0 }
  u8_literal := { value := { type := 0 }, literal_value := 0 }
  u16_literal := { value := { type := 0 }, literal_value := 0 }
  u32_literal := { value := { type := 0 }, literal_value := 0 }
  fun_type := { return_type := 0, param_types := none, name := 0 }
  fun_type_with_named_params :=
    { fun_type := { return_type := 0, param_types := none, name := 0 }, names := none }
  struct_type := { struct_scope := 0 }
  struct_field := { value := { type := 0 }, name := 0, offset := 0 }
  scope := { outer_scope := 0, name := 0, dict := none }
  block_scope := { scope := { outer_scope := 0, name := 0, dict := none }, block_stmt := 0 }
  function :=
    { scope := { outer_scope := 0, name := 0, dict := none },
      function_type_with_named_params := 0 }
  struc := { scope := { outer_scope := 0, name := 0, dict := none } }
  unio := { scope := { outer_scope := 0, name := 0, dict := none } }
  variable_decl_stmt := { «variable» := 0, init_expr := 0 }
  block_stmt := { block_scope := 0, stmts := none }
  if_else_stmt := { expr := 0, stmt := 0, else_stmt := 0 }
  while_stmt := { expr := 0, stmt := 0 }

/-- Model of `struct AstNode`: the kind tag plus the payload union. -/
structure AstNode where
  kind : AstNode.Kind
  node : Node
deriving DecidableEq, Repr

namespace AstNode

/-- The `AstNode(Kind kind)` constructor: `memset` to zero, then set the kind. -/
def mkNode (kind : Kind) : AstNode := { kind := kind, node := Node.zero }

instance : Inhabited AstNode := ⟨mkNode Kind.None⟩

/-- `AstNode::is_stmt(Kind)`. -/
def is_stmt (kind : Kind) : Bool :=
  match kind with
  | Kind.VariableDeclStmt
  | Kind.BlockStmt
  | Kind.FunctionDeclStmt
  | Kind.StructDeclStmt
  | Kind.UnionDeclStmt
  | Kind.IfElseStmt
  | Kind.WhileStmt => true
  | _ => false

/-- `AstNode::is_expr(Kind)`. -/
def is_expr (kind : Kind) : Bool :=
  match kind with
  | Kind.AssignExpr
  | Kind.EqualExpr
  | Kind.GreatExpr
  | Kind.GreatOrEqualExpr
  | Kind.LessExpr
  | Kind.LessOrEqualExpr => true
  | _ => false

/-- `AstNode::is_scope(Kind)`. -/
def is_scope (kind : Kind) : Bool :=
  match kind with
  | Kind.Function
  | Kind.Struct
  | Kind.Union => true
  | _ => false

/-- `AstNode::is_type(Kind)`. -/
def is_type (kind : Kind) : Bool :=
  match kind with
  | Kind.I8Type
  | Kind.I16Type
  | Kind.I32Type
  | Kind.U8Type
  | Kind.U16Type
  | Kind.U32Type
  | Kind.F32Type
  | Kind.F64Type
  | Kind.StructType
  | Kind.UnionType
  | Kind.FunType => true
  | _ => false

/-- `AstNode::is_value(Kind)`. -/
def is_value (kind : Kind) : Bool :=
  match kind with
  | Kind.LocalVariable
  | Kind.GlobalVariable
  | Kind.StringLiteral
  | Kind.I8Literal
  | Kind.I16Literal
  | Kind.I32Literal
  | Kind.U8Literal
  | Kind.U16Literal
  | Kind.U32Literal
  | Kind.F32Literal
  | Kind.F64Literal
  | Kind.StructField
  | Kind.UnionField => true
  | _ => false

/-- `AstNode::clean()`: the per-kind `delete` calls release the heap-owned
sub-lists of the current kind (in the model: drop the `Option` contents),
after which `memset(this, 0, sizeof(AstNode))` zero-fills the node and the
kind is set to `None`.  The final zero-fill subsumes the nulling of the
freed pointers, so the composite result is the fully zeroed node. -/
def clean (_n : AstNode) : AstNode := { kind := Kind.None, node := Node.zero }

end AstNode

/-- Model of `class Ast`: the node arena and its free list. -/
structure Ast where
  nodes : List AstNode
  removed : List Nat
deriving DecidableEq, Repr

namespace Ast

/-- The empty arena (a default-constructed `Ast`). -/
def empty : Ast := { nodes := [], removed := [] }

/-- `Ast::get_node(index)` (partial read access modelled as an `Option`). -/
def get_node (a : Ast) (index : Nat) : Option AstNode := a.nodes[index]?

/-- `Ast::create(kind)`: with an empty free list, append a fresh
zero-initialized node and return the index of the new last slot; otherwise
pop the most recently removed index from the free list and overwrite only
the `kind` field of that slot. -/
def create (a : Ast) (kind : AstNode.Kind) : Nat × Ast :=
  match a.removed with
  | [] =>
      (a.nodes.length, { a with nodes := a.nodes ++ [AstNode.mkNode kind] })
  | index :: rest =>
      (index,
       { nodes := a.nodes.set index { (a.nodes.getD index default) with kind := kind },
         removed := rest })

/-- `Ast::remove(index)`: clean the node in place and push the index onto
the free list. -/
def remove (a : Ast) (index : Nat) : Ast :=
  { nodes := a.nodes.set index ((a.nodes.getD index default).clean),
    removed := index :: a.removed }

end Ast

example : (((OrderedDict.empty.append 0 10).append 0 20).append 1 30).find 0 = 10 := by decide
example : (((OrderedDict.empty.append 0 10).append 0 20).append 1 30).find 1 = 30 := by decide
example : (((OrderedDict.empty.append 0 10).append 0 20).append 1 30).get_nodes = [10, 30] := by
  decide
example : AstNode.is_type AstNode.Kind.FunTypeWithNamedParams = false := by decide

/-! ## OrderedDict lemmas -/

lemma append_mapFind (d : OrderedDict) (k v name : Nat) :
    mapFind (d.append k v).m_map name =
      match mapFind d.m_map name with
      | some w => some w
      | none => if k = name then some v else none := by
  unfold OrderedDict.append
  cases hk : mapFind d.m_map k with
  | none =>
      simp only [mapFind]
      by_cases h : k = name
      · subst h
        rw [hk]
      · simp only [if_neg h]
        cases hn : mapFind d.m_map name <;> simp
  | some w =>
      by_cases h : k = name
      · subst h
        rw [hk]
      · cases hn : mapFind d.m_map name <;> simp [h]

lemma appendAll_mapFind (ops : List (Nat × Nat)) (d : OrderedDict) (name : Nat) :
    mapFind (d.appendAll ops).m_map name =
      match mapFind d.m_map name with
      | some w => some w
      | none => firstWith ops name := by
  induction ops generalizing d with
  | nil =>
      simp only [OrderedDict.appendAll, List.foldl_nil, firstWith]
      cases mapFind d.m_map name <;> rfl
  | cons p rest ih =>
      obtain ⟨k, v⟩ := p
      have hfold : d.appendAll ((k, v) :: rest) = (d.append k v).appendAll rest := rfl
      rw [hfold, ih, append_mapFind]
      cases hn : mapFind d.m_map name with
      | some w => rfl
      | none =>
          by_cases h : k = name
          · simp [firstWith, h]
          · simp [firstWith, h]

lemma firstWith_eq_none_iff (ops : List (Nat × Nat)) (name : Nat) :
    firstWith ops name = none ↔ ∀ p ∈ ops, p.1 ≠ name := by
  induction ops with
  | nil => simp [firstWith]
  | cons p rest ih =>
      obtain ⟨k, v⟩ := p
      by_cases h : k = name
      · simp [firstWith, h]
      · simp [firstWith, h, ih]

lemma firstWith_some_mem (ops : List (Nat × Nat)) (name v : Nat)
    (h : firstWith ops name = some v) : ∃ p ∈ ops, p.1 = name ∧ p.2 = v := by
  induction ops with
  | nil => simp [firstWith] at h
  | cons q rest ih =>
      obtain ⟨k, w⟩ := q
      by_cases hk : k = name
      · simp [firstWith, hk] at h
        exact ⟨(k, w), by simp, hk, h⟩
      · simp only [firstWith, if_neg hk] at h
        obtain ⟨p, hp, h1, h2⟩ := ih h
        exact ⟨p, List.mem_cons_of_mem _ hp, h1, h2⟩

/-! ## Arena lemmas -/

lemma concat_getElem?_ne {α : Type} (l : List α) (x : α) (j : Nat) (h : j ≠ l.length) :
    (l ++ [x])[j]? = l[j]? := by
  rcases Nat.lt_trichotomy j l.length with hlt | heq | hgt
  · exact List.getElem?_append_left hlt
  · exact absurd heq h
  · rw [List.getElem?_eq_none (by simp; omega), List.getElem?_eq_none (by omega)]

lemma create_fresh (a : Ast) (k : AstNode.Kind) (h : a.removed = []) :
    (a.create k).1 = a.nodes.length ∧
    (a.create k).2.nodes = a.nodes ++ [AstNode.mkNode k] ∧
    (a.create k).2.removed = [] := by
  simp [Ast.create, h]

lemma create_recycle (a : Ast) (k : AstNode.Kind) (i : Nat) (rest : List Nat)
    (h : a.removed = i :: rest) :
    (a.create k).1 = i ∧
    (a.create k).2.nodes = a.nodes.set i { (a.nodes.getD i default) with kind := k } ∧
    (a.create k).2.removed = rest := by
  simp [Ast.create, h]

lemma create_frame (a : Ast) (k : AstNode.Kind) (h : Nat) (hne : (a.create k).1 ≠ h) :
    (a.create k).2.nodes[h]? = a.nodes[h]? := by
  cases hr : a.removed with
  | nil =>
      simp only [Ast.create, hr] at hne ⊢
      exact concat_getElem?_ne _ _ _ (Ne.symm hne)
  | cons i rest =>
      simp only [Ast.create, hr] at hne ⊢
      exact List.getElem?_set_ne hne

lemma remove_frame (a : Ast) (j h : Nat) (hne : j ≠ h) :
    (a.remove j).nodes[h]? = a.nodes[h]? :=
  List.getElem?_set_ne hne

lemma remove_node_at (a : Ast) (h : Nat) (hlt : h < a.nodes.length) :
    (a.remove h).nodes[h]? = some (AstNode.mkNode AstNode.Kind.None) := by
  simp [Ast.remove, AstNode.clean, AstNode.mkNode, List.getElem?_set_self hlt]

lemma remove_removed (a : Ast) (h : Nat) : (a.remove h).removed = h :: a.removed := rfl

lemma create_after_remove (a : Ast) (h : Nat) (k : AstNode.Kind)
    (hlt : h < a.nodes.length) :
    ((a.remove h).create k).1 = h ∧
    ((a.remove h).create k).2.nodes[h]? = some (AstNode.mkNode k) := by
  have hr : (a.remove h).removed = h :: a.removed := rfl
  obtain ⟨h1, h2, _⟩ := create_recycle (a.remove h) k h a.removed hr
  refine ⟨h1, ?_⟩
  rw [h2]
  have hlen : h < (a.remove h).nodes.length := by
    simpa [Ast.remove] using hlt
  have hget : (a.remove h).nodes.getD h default = AstNode.mkNode AstNode.Kind.None := by
    rw [List.getD_eq_getElem?_getD, remove_node_at a h hlt]
    rfl
  rw [List.getElem?_set_self hlen, hget]
  rfl

/-- Helper: `find` on a dictionary built from scratch is determined by the
earliest append under the name. -/
lemma appendAll_find (ops : List (Nat × Nat)) (name : Nat) :
    (OrderedDict.empty.appendAll ops).find name =
      match firstWith ops name with
      | none => UndefinedAstNodeIndex
      | some v => v := by
  unfold OrderedDict.find
  rw [appendAll_mapFind]
  rfl

/-- Claim C1, counterexample: after inserting `("a", n1)`, `("a", n2)`,
`("b", n3)` (names 0, 0, 1; nodes 10, 20, 30) the ordered sequence is not
`[n1, n2, n3]` — the second append of the same name is dropped entirely. -/
theorem append_repeat_counterexample :
    ¬ ((((OrderedDict.empty.append 0 10).append 0 20).append 1 30).get_nodes
        = [10, 20, 30]) := by
  decide

/-- Claim C1, amended: the first occurrence of a name records the lookup
mapping and appends the node to the ordered sequence; every subsequent
occurrence of the same name leaves the dictionary completely unchanged
(it is appended nowhere); the concrete example yields `find "a" = n1`,
`find "b" = n3`, and `nodes() = [n1, n3]`. -/
theorem append_first_wins (d : OrderedDict) (name idx : Nat) :
    (mapFind d.m_map name = none →
      (d.append name idx).find name = idx ∧
      (d.append name idx).get_nodes = d.get_nodes ++ [idx]) ∧
    (∀ v, mapFind d.m_map name = some v → d.append name idx = d) ∧
    ((((OrderedDict.empty.append 0 10).append 0 20).append 1 30).find 0 = 10 ∧
     (((OrderedDict.empty.append 0 10).append 0 20).append 1 30).find 1 = 30 ∧
     (((OrderedDict.empty.append 0 10).append 0 20).append 1 30).get_nodes
        = [10, 30]) := by
  refine ⟨?_, ?_, by decide, by decide, by decide⟩
  · intro h
    have he : d.append name idx =
        { m_map := (name, idx) :: d.m_map, m_nodes := d.m_nodes ++ [idx] } := by
      unfold OrderedDict.append
      rw [h]
    rw [he]
    refine ⟨?_, rfl⟩
    unfold OrderedDict.find
    simp [mapFind]
  · intro v h
    unfold OrderedDict.append
    rw [h]

/-- Witness for C1 at the empty dictionary with a fresh name. -/
theorem append_first_wins_witness :
    (OrderedDict.empty.append 3 7).find 3 = 7 ∧
    (OrderedDict.empty.append 3 7).get_nodes = OrderedDict.empty.get_nodes ++ [7] :=
  (append_first_wins OrderedDict.empty 3 7).1 rfl

/-- Claim C2, counterexample: `is_type` does not classify
`FunTypeWithNamedParams` as a type kind. -/
theorem is_type_named_funtype_counterexample :
    ¬ (AstNode.is_type AstNode.Kind.FunTypeWithNamedParams = true) := by
  decide

/-- Claim C2, amended: `is_type(FunTypeWithNamedParams)` is `false`; among
the function-type kinds only the plain `FunType` is classified as a type. -/
theorem is_type_named_funtype_amended :
    AstNode.is_type AstNode.Kind.FunTypeWithNamedParams = false ∧
    AstNode.is_type AstNode.Kind.FunType = true := by
  decide

/-- Claim C3: for every sequence of named appends on one dictionary starting
empty, `find name` returns the node index passed in the earliest append under
that name, regardless of later appends with the same name. -/
theorem find_returns_earliest (ops : List (Nat × Nat)) (name v : Nat)
    (h : firstWith ops name = some v) :
    (OrderedDict.empty.appendAll ops).find name = v := by
  rw [appendAll_find, h]

/-- Witness for C3: three appends, a repeated name, lookup gives the first. -/
theorem find_returns_earliest_witness :
    (OrderedDict.empty.appendAll [(5, 11), (5, 22), (6, 33)]).find 5 = 11 :=
  find_returns_earliest [(5, 11), (5, 22), (6, 33)] 5 11 (by decide)

/-- Claim C8: for every node kind, at most one of the classification
predicates `is_type`, `is_value`, `is_stmt`, `is_scope` returns true. -/
theorem kind_predicates_disjoint (k : AstNode.Kind) :
    [AstNode.is_type k, AstNode.is_value k, AstNode.is_stmt k,
      AstNode.is_scope k].count true ≤ 1 := by
  cases k <;> decide

/-- Claim C10, counterexample: appending the sentinel value itself as a node
index makes `find` return `UndefinedAstNodeIndex` although the name was
appended, so "returns the sentinel exactly when the name was never appended"
fails for in-band values. -/
theorem find_sentinel_counterexample :
    (OrderedDict.empty.appendAll [(0, UndefinedAstNodeIndex)]).find 0
        = UndefinedAstNodeIndex ∧
    0 ∈ ([(0, UndefinedAstNodeIndex)].map Prod.fst) := by
  constructor
  · rfl
  · simp

/-- Claim C10, amended: provided every appended node index differs from the
sentinel `UndefinedAstNodeIndex = 2^32 - 1`, `find name` returns the sentinel
exactly when `name` was never passed to the named append. -/
theorem find_sentinel_iff (ops : List (Nat × Nat)) (name : Nat)
    (hv : ∀ p ∈ ops, p.2 ≠ UndefinedAstNodeIndex) :
    ((OrderedDict.empty.appendAll ops).find name = UndefinedAstNodeIndex ↔
      ∀ p ∈ ops, p.1 ≠ name) := by
  rw [appendAll_find]
  cases hf : firstWith ops name with
  | none =>
      change UndefinedAstNodeIndex = UndefinedAstNodeIndex ↔ ∀ p ∈ ops, p.1 ≠ name
      constructor
      · intro _
        exact (firstWith_eq_none_iff ops name).mp hf
      · intro _
        rfl
  | some v =>
      change v = UndefinedAstNodeIndex ↔ ∀ p ∈ ops, p.1 ≠ name
      obtain ⟨p, hp, hp1, hp2⟩ := firstWith_some_mem ops name v hf
      constructor
      · intro heq
        exact absurd (hp2.trans heq) (hv p hp)
      · intro hall
        exact absurd hp1 (hall p hp)

/-- Witness for C10 on a dictionary whose node indices avoid the sentinel. -/
theorem find_sentinel_iff_witness :
    ((OrderedDict.empty.appendAll [(4, 9)]).find 7 = UndefinedAstNodeIndex ↔
      ∀ p ∈ [((4 : Nat), (9 : Nat))], p.1 ≠ 7) :=
  find_sentinel_iff [(4, 9)] 7 (by decide)

/-- Claim C4: `create k` yields a node of kind `k` with an all-zero payload,
both on a fresh slot (empty free list) and on a slot recycled immediately
after a `remove`; and the node at a handle is untouched by a `create`
returning a different handle or a `remove` of a different handle, so the
kind stays `k` until the node itself is removed or rewritten. -/
theorem create_kind_and_zero (a : Ast) (k k2 : AstNode.Kind) (h j : Nat) :
    (a.removed = [] →
      (a.create k).2.nodes[(a.create k).1]? =
        some { kind := k, node := Node.zero }) ∧
    (h < a.nodes.length →
      ((a.remove h).create k2).1 = h ∧
      ((a.remove h).create k2).2.nodes[h]? =
        some { kind := k2, node := Node.zero }) ∧
    ((a.create k).1 ≠ h → (a.create k).2.nodes[h]? = a.nodes[h]?) ∧
    (j ≠ h → (a.remove j).nodes[h]? = a.nodes[h]?) := by
  refine ⟨?_, ?_, create_frame a k h, remove_frame a j h⟩
  · intro hr
    obtain ⟨h1, h2, _⟩ := create_fresh a k hr
    rw [h1, h2]
    exact List.getElem?_concat_length _ _
  · intro hlt
    exact create_after_remove a h k2 hlt

/-- Witness for C4: remove the only node of a one-node arena, then create. -/
theorem create_kind_and_zero_witness :
    (((Ast.empty.create AstNode.Kind.I32Type).2.remove 0).create
        AstNode.Kind.FunType).1 = 0 ∧
    (((Ast.empty.create AstNode.Kind.I32Type).2.remove 0).create
        AstNode.Kind.FunType).2.nodes[0]? =
      some { kind := AstNode.Kind.FunType, node := Node.zero } :=
  (create_kind_and_zero (Ast.empty.create AstNode.Kind.I32Type).2
    AstNode.Kind.I8Type AstNode.Kind.FunType 0 1).2.1 (by decide)

/-- Claim C5: `remove h` resets the slot at `h` to the `None` kind with all
payload fields zeroed — in particular the kind-specific heap-owned sub-lists
(parameter-type list, named-parameter list, statement list, scope dictionary)
are gone (null) — and pushes `h` onto the free list, so a following `create`
reuses exactly this handle. -/
theorem remove_resets_slot (a : Ast) (h : Nat) (k : AstNode.Kind)
    (hlt : h < a.nodes.length) :
    (a.remove h).nodes[h]? = some { kind := AstNode.Kind.None, node := Node.zero } ∧
    ((a.remove h).nodes.getD h default).node.fun_type.param_types = none ∧
    ((a.remove h).nodes.getD h default).node.fun_type_with_named_params.names = none ∧
    ((a.remove h).nodes.getD h default).node.block_stmt.stmts = none ∧
    ((a.remove h).nodes.getD h default).node.scope.dict = none ∧
    (a.remove h).removed = h :: a.removed ∧
    ((a.remove h).create k).1 = h := by
  have hn := remove_node_at a h hlt
  have hd : (a.remove h).nodes.getD h default = AstNode.mkNode AstNode.Kind.None := by
    rw [List.getD_eq_getElem?_getD, hn]
    rfl
  refine ⟨hn, ?_, ?_, ?_, ?_, rfl, (create_after_remove a h k hlt).1⟩ <;>
    rw [hd] <;> rfl

/-- Witness for C5 on a one-node arena. -/
theorem remove_resets_slot_witness :
    ((Ast.empty.create AstNode.Kind.I32Type).2.remove 0).nodes[0]? =
      some { kind := AstNode.Kind.None, node := Node.zero } :=
  (remove_resets_slot (Ast.empty.create AstNode.Kind.I32Type).2 0
    AstNode.Kind.U8Type (by decide)).1

/-- Claim C6: `create` recycles exactly when the free list is non-empty —
the returned handle is then a member of the free list and no slot is added —
and otherwise appends a fresh slot, returning the slot count from before the
call; in every case `create` consumes the head of the free list and nothing
else. -/
theorem create_reuse_policy (a : Ast) (k : AstNode.Kind) :
    (a.removed ≠ [] →
      (a.create k).1 ∈ a.removed ∧
      (a.create k).2.nodes.length = a.nodes.length) ∧
    (a.removed = [] →
      (a.create k).1 = a.nodes.length ∧
      (a.create k).2.nodes.length = a.nodes.length + 1) ∧
    (a.create k).2.removed = a.removed.tail := by
  cases hr : a.removed with
  | nil =>
      obtain ⟨h1, h2, h3⟩ := create_fresh a k hr
      refine ⟨fun hne => absurd rfl hne, fun _ => ⟨h1, ?_⟩, ?_⟩
      · rw [h2]
        simp
      · rw [h3]
        rfl
  | cons i rest =>
      obtain ⟨h1, h2, h3⟩ := create_recycle a k i rest hr
      refine ⟨fun _ => ⟨?_, ?_⟩, fun hnil => absurd hnil (by simp), ?_⟩
      · rw [h1]
        exact List.mem_cons_self _ _
      · rw [h2]
        simp
      · rw [h3]
        rfl

/-- Witness for C6: creating in an empty arena appends slot 0. -/
theorem create_reuse_policy_witness :
    (Ast.empty.create AstNode.Kind.I8Type).1 = Ast.empty.nodes.length ∧
    (Ast.empty.create AstNode.Kind.I8Type).2.nodes.length =
      Ast.empty.nodes.length + 1 :=
  (create_reuse_policy Ast.empty AstNode.Kind.I8Type).2.1 rfl

/-- Claim C7: arena operations do not disturb unrelated slots — a `create`
returning a handle different from `h` and a `remove` of a handle different
from `h` both leave the node stored at `h` unchanged. -/
theorem arena_frame (a : Ast) (k : AstNode.Kind) (h h2 : Nat) :
    ((a.create k).1 ≠ h → (a.create k).2.nodes[h]? = a.nodes[h]?) ∧
    (h2 ≠ h → (a.remove h2).nodes[h]? = a.nodes[h]?) :=
  ⟨create_frame a k h, remove_frame a h2 h⟩

/-- Witness for C7: a create in the empty arena (returning handle 0) leaves
slot 5 as it was. -/
theorem arena_frame_witness :
    (Ast.empty.create AstNode.Kind.I8Type).2.nodes[5]? = Ast.empty.nodes[5]? :=
  (arena_frame Ast.empty AstNode.Kind.I8Type 5 9).1 (by decide)

/-- Claim C9: slot recycling is last-in-first-out — after removing `h1` then
`h2` with no intervening create, the next `create` returns `h2`; in general
`create` pops exactly the most recently removed handle off the free list. -/
theorem create_pops_lifo (a : Ast) (h1 h2 : Nat) (k : AstNode.Kind) :
    (((a.remove h1).remove h2).create k).1 = h2 ∧
    (∀ i rest, a.removed = i :: rest →
      (a.create k).1 = i ∧ (a.create k).2.removed = rest) := by
  constructor
  · rfl
  · intro i rest hr
    obtain ⟨ha, _, hc⟩ := create_recycle a k i rest hr
    exact ⟨ha, hc⟩

/-- Witness for C9: removing handle 3 and creating again returns handle 3. -/
theorem create_pops_lifo_witness :
    ((Ast.empty.remove 3).create AstNode.Kind.I8Type).1 = 3 ∧
    ((Ast.empty.remove 3).create AstNode.Kind.I8Type).2.removed = [] :=
  (create_pops_lifo (Ast.empty.remove 3) 7 8 AstNode.Kind.I8Type).2 3 [] rfl
